import Mathlib

/-!
Verification of the SEO dashboard script (`dashboard.py`).

The script fetches rows from an external store (three tables: `seo_snapshots`,
`seo_tasks`, `page_performance`), computes one KPI delta between the two most
recent snapshots, classifies the LCP metric against a 2.5s threshold, and lets
the user mark a task "done".  We embed the store-facing functions and the KPI
logic as pure Lean functions: the store response is an `Except` value (an
`Except.error` stands for a raised client exception / unreachable store), a
table is a list of records, and the query combinators (`eq`, `order`, `limit`)
are given their standard relational semantics (filter, sort descending by
`created_at`, take).
-/

namespace SeoDashboard

/-- A row of `seo_snapshots`: periodic aggregate SEO metrics.  Numeric fields
are optional because the store may hold SQL `null` (Python `None`). -/
structure Snapshot where
  created_at : Nat
  overall_score : Option Int
  gsc_clicks : Option Int
  psi_mobile_score : Option Int
  psi_lcp : Option ℚ
  semantisk_analyse : Option String
deriving DecidableEq

/-- A row of `seo_tasks`: a recommended work item with a pending/done status. -/
structure Task where
  id : Nat
  created_at : Nat
  status : String
  task_name : String
deriving DecidableEq

/-- A row of `page_performance`: per-page traffic and ranking metrics. -/
structure PagePerformance where
  created_at : Nat
  page_name : String
  clicks : Int
  impressions : Int
  ctr : ℚ
  position : ℚ
deriving DecidableEq

/-- Insert `x` into a list kept in descending `key` order (newest first). -/
def insertDescBy (key : α → Nat) (x : α) : List α → List α
  | [] => [x]
  | y :: ys => if key y ≤ key x then x :: y :: ys else y :: insertDescBy key x ys

/-- Sort a list in descending `key` order: the semantics of the store's
`order("created_at", desc=True)`. -/
def sortDescBy (key : α → Nat) : List α → List α
  | [] => []
  | x :: xs => insertDescBy key x (sortDescBy key xs)

/-- Function `get_seo_data` (dashboard.py lines 36-44): select all snapshots
ordered by `created_at` descending, limit 30; on any exception return the
empty frame. -/
def get_seo_data (resp : Except String (List Snapshot)) : List Snapshot :=
  match resp with
  | Except.error _ => []
  | Except.ok store => (sortDescBy (fun s => s.created_at) store).take 30

/-- Function `get_pending_tasks` (dashboard.py lines 46-51): select tasks
with status equal to "pending" ordered by `created_at` descending; on any
exception return the empty list. -/
def get_pending_tasks (resp : Except String (List Task)) : List Task :=
  match resp with
  | Except.error _ => []
  | Except.ok store =>
      sortDescBy (fun t => t.created_at) (store.filter (fun t => t.status == "pending"))

/-- The store-level effect of the update statement in `mark_task_done`
(dashboard.py line 54): set `status` to `"done"` on a task row. -/
def setDone (t : Task) : Task := { t with status := "done" }

/-- The update statement — set status to "done" where id equals the given
task id — applied to the task table: every row whose `id` matches is
updated; an update matching zero rows is not an error in the store, it
simply changes nothing. -/
def applyMarkDone (store : List Task) (tid : Nat) : List Task :=
  store.map (fun t => if t.id = tid then setDone t else t)

/-- Function `mark_task_done` (dashboard.py lines 53-56): the update is NOT
wrapped in a try/except, so a failing write surfaces (propagates) to the
caller; a successful write yields the updated store. -/
def mark_task_done (store : Except String (List Task)) (tid : Nat) :
    Except String (List Task) :=
  match store with
  | Except.error e => Except.error e
  | Except.ok ts => Except.ok (applyMarkDone ts tid)

/-- The Python idiom `v or 0` followed by `int(...)` on an optional integer
(dashboard.py line 86): `None` is falsy, so is `0`; any other value passes
through. -/
def pyOrZeroInt (v : Option Int) : Int :=
  match v with
  | none => 0
  | some n => if n = 0 then 0 else n

/-- The coercion as the specification words it: a null/missing value maps to
0, a present value to its integer value.  Stated from the spec for the
refinement comparison with `pyOrZeroInt`. -/
def specCoerce (v : Option Int) : Int := v.getD 0

/-- The score delta `delta_score` (dashboard.py lines 84-86): 0 when fewer
than two snapshots exist, otherwise the difference of the coerced
`overall_score` of the newest snapshot and of the previous one, on the
newest-first snapshot sequence. -/
def delta_score (snaps : List Snapshot) : Int :=
  match snaps with
  | a :: b :: _ => pyOrZeroInt a.overall_score - pyOrZeroInt b.overall_score
  | _ => 0

/-- The `delta_color` classification of the LCP metric (dashboard.py lines
97-99): `"inverse" if lcp_val > 2.5 else "normal"`.  The raw column value is
used with no null guard: comparing Python `None` against the float `2.5`
raises a `TypeError`, so a null LCP is an error, not a classification. -/
def lcp_delta_color (lcp_val : Option ℚ) : Except String String :=
  match lcp_val with
  | none => Except.error "TypeError: comparison of NoneType and float"
  | some v => Except.ok (if v > 5/2 then "inverse" else "normal")

/-- Outcome of the products tab (dashboard.py lines 184-250). -/
inductive ProductsView where
  | table (rows : List PagePerformance)
  | noData
  | errorShown (msg : String)
deriving DecidableEq

/-- The products-tab fetch and render (dashboard.py lines 187-250): the
whole block sits in a try/except; success with rows renders the table (ordered by
`created_at` descending, limit 1000), success with no rows shows the neutral
"Ingen data fundet endnu." message, and an exception is caught and shown as
an error message via `st.error`. -/
def tab_products (store : Except String (List PagePerformance)) : ProductsView :=
  match store with
  | Except.error e => ProductsView.errorShown ("Kunne ikke hente produkt-data: " ++ e)
  | Except.ok rows =>
      match (sortDescBy (fun p => p.created_at) rows).take 1000 with
      | [] => ProductsView.noData
      | v :: vs => ProductsView.table (v :: vs)

/-- What a render cycle of the script produces. -/
inductive Render where
  | waitingForData
  | dashboard (df : List Snapshot) (tasks : List Task) (delta : Int)
      (products : ProductsView)

/-- The top-level flow of the script (dashboard.py lines 75-105): fetch
snapshots, fetch pending tasks, and if the snapshot frame is empty show the
waiting message and `st.stop()` — nothing after the guard runs.  Otherwise the
full dashboard (KPIs, task tab, products tab) is rendered. -/
def run_dashboard (snapResp : Except String (List Snapshot))
    (taskResp : Except String (List Task))
    (perfResp : Except String (List PagePerformance)) : Render :=
  let df := get_seo_data snapResp
  let tasks := get_pending_tasks taskResp
  if df = [] then
    Render.waitingForData
  else
    Render.dashboard df tasks (delta_score df) (tab_products perfResp)

/-! ## Helper lemmas about the descending insertion sort -/

theorem mem_insertDescBy (key : α → Nat) (x a : α) (l : List α) :
    a ∈ insertDescBy key x l ↔ a = x ∨ a ∈ l := by
  induction l with
  | nil => simp [insertDescBy]
  | cons y ys ih =>
      simp only [insertDescBy]
      split
      · simp
      · simp [ih]
        tauto

theorem pairwise_insertDescBy (key : α → Nat) (x : α) (l : List α)
    (h : l.Pairwise (fun a b => key b ≤ key a)) :
    (insertDescBy key x l).Pairwise (fun a b => key b ≤ key a) := by
  induction l with
  | nil => simp [insertDescBy]
  | cons y ys ih =>
      simp only [insertDescBy]
      rcases List.pairwise_cons.mp h with ⟨hy, hys⟩
      split
      · rename_i hxy
        refine List.pairwise_cons.mpr ⟨?_, h⟩
        intro b hb
        rcases hb with _ | hb
        · exact hxy
        · exact le_trans (hy b (by assumption)) hxy
      · rename_i hxy
        refine List.pairwise_cons.mpr ⟨?_, ih hys⟩
        intro b hb
        rcases (mem_insertDescBy key x b ys).mp hb with hb | hb
        · subst hb; omega
        · exact hy b hb

theorem mem_sortDescBy (key : α → Nat) (a : α) (l : List α) :
    a ∈ sortDescBy key l ↔ a ∈ l := by
  induction l with
  | nil => simp [sortDescBy]
  | cons y ys ih => simp [sortDescBy, mem_insertDescBy, ih]

theorem pairwise_sortDescBy (key : α → Nat) (l : List α) :
    (sortDescBy key l).Pairwise (fun a b => key b ≤ key a) := by
  induction l with
  | nil => simp [sortDescBy]
  | cons y ys ih => exact pairwise_insertDescBy key y _ ih

theorem pyOrZeroInt_eq_specCoerce (v : Option Int) :
    pyOrZeroInt v = specCoerce v := by
  cases v with
  | none => rfl
  | some n =>
      simp only [pyOrZeroInt, specCoerce, Option.getD_some]
      split <;> omega

/-! ## Claims -/

/-- Claim C1: for snapshots A (index 0) and B (index 1) of the fetched
sequence, the computed score delta is `coerce A.overall_score -
coerce B.overall_score`, where the coercion maps a null to 0 and a present
value to itself. -/
theorem delta_score_eq_coerce_sub (A B : Snapshot) (rest : List Snapshot) :
    delta_score (A :: B :: rest) =
      specCoerce A.overall_score - specCoerce B.overall_score := by
  simp [delta_score, pyOrZeroInt_eq_specCoerce]

/-- Claim C2: for a snapshot sequence of length 0 or 1 the computed delta is
0; the computation is total over sequences of any length. -/
theorem delta_score_short_eq_zero (snaps : List Snapshot)
    (h : snaps.length < 2) : delta_score snaps = 0 := by
  match snaps with
  | [] => rfl
  | [_] => rfl
  | _ :: _ :: _ => simp at h; omega

/-- Witness for C2: the spec's single-element example
`[(score null, clicks 50)]` yields delta 0 (and so does the empty sequence). -/
theorem delta_score_short_eq_zero_witness :
    delta_score [⟨0, none, some 50, none, none, none⟩] = 0 ∧
      delta_score ([] : List Snapshot) = 0 :=
  ⟨delta_score_short_eq_zero _ (by decide),
   delta_score_short_eq_zero _ (by decide)⟩

/-- Claim C9: an LCP value is classified "inverse" exactly when it exceeds
2.5, and "normal" otherwise; in particular 3.1 is "inverse" and 2.0 is
"normal". -/
theorem lcp_delta_color_iff :
    (∀ v : ℚ, (lcp_delta_color (some v) = Except.ok "inverse" ↔ v > 5/2) ∧
      (lcp_delta_color (some v) = Except.ok "normal" ↔ ¬ v > 5/2)) ∧
    lcp_delta_color (some (31/10)) = Except.ok "inverse" ∧
    lcp_delta_color (some 2) = Except.ok "normal" := by
  refine ⟨fun v => ⟨?_, ?_⟩, ?_, ?_⟩
  · simp only [lcp_delta_color]
    split <;> rename_i hv
    · simpa using hv
    · simp only [Except.ok.injEq]
      constructor
      · intro h; exact absurd h.symm (by decide)
      · intro h; exact absurd h hv
  · simp only [lcp_delta_color]
    split <;> rename_i hv
    · simp only [Except.ok.injEq]
      constructor
      · intro h; exact absurd h (by decide)
      · intro h; exact absurd hv h
    · simpa using hv
  · norm_num [lcp_delta_color]
  · norm_num [lcp_delta_color]

/-- Witness for C9: instantiating the classification equivalence at 3.1. -/
theorem lcp_delta_color_iff_witness :
    lcp_delta_color (some (31/10)) = Except.ok "inverse" :=
  (lcp_delta_color_iff.1 (31/10)).1.mpr (by norm_num)

/-- Claim C4: every task returned by `get_pending_tasks` has status
"pending" (hence never "done"), and the result is ordered newest first by
`created_at`. -/
theorem get_pending_tasks_pending_sorted (resp : Except String (List Task)) :
    (∀ t ∈ get_pending_tasks resp, t.status = "pending" ∧ t.status ≠ "done") ∧
    (get_pending_tasks resp).Pairwise
      (fun a b => b.created_at ≤ a.created_at) := by
  cases resp with
  | error e => simp [get_pending_tasks]
  | ok store =>
      constructor
      · intro t ht
        have hmem : t ∈ store.filter (fun t => t.status == "pending") := by
          simpa [get_pending_tasks, mem_sortDescBy] using ht
        have hp : t.status = "pending" := by
          simpa using (List.mem_filter.mp hmem).2
        exact ⟨hp, by simp [hp]⟩
      · exact pairwise_sortDescBy _ _

/-- Witness for C4: a concrete store with mixed statuses; the task fetched
from it is pending and not done. -/
theorem get_pending_tasks_pending_sorted_witness :
    (⟨3, 7, "pending", "c"⟩ : Task).status = "pending" ∧
      (⟨3, 7, "pending", "c"⟩ : Task).status ≠ "done" :=
  (get_pending_tasks_pending_sorted
      (Except.ok [⟨1, 5, "pending", "a"⟩, ⟨2, 9, "done", "b"⟩,
        ⟨3, 7, "pending", "c"⟩])).1
    ⟨3, 7, "pending", "c"⟩ (by decide)

theorem setDone_id (t : Task) : (setDone t).id = t.id := rfl

theorem setDone_setDone (t : Task) : setDone (setDone t) = setDone t := rfl

theorem setDone_of_done (t : Task) (h : t.status = "done") : setDone t = t := by
  cases t
  simp only [setDone]
  simp_all

theorem applyMarkDone_idem (s : List Task) (tid : Nat) :
    applyMarkDone (applyMarkDone s tid) tid = applyMarkDone s tid := by
  induction s with
  | nil => rfl
  | cons t ts ih =>
      simp only [applyMarkDone, List.map_cons] at *
      by_cases h : t.id = tid
      · simp [h, setDone_id, setDone_setDone, ih]
      · simp [h, ih]

/-- Claim C5: `mark_task_done` is idempotent in effect: on a store whose
matching tasks are already done it changes nothing, and marking the same id
twice yields the same store as marking it once. -/
theorem mark_task_done_idem :
    (∀ (s : List Task) (tid : Nat),
      (∀ t ∈ s, t.id = tid → t.status = "done") →
        mark_task_done (Except.ok s) tid = Except.ok s) ∧
    (∀ (s : List Task) (tid : Nat),
      mark_task_done (mark_task_done (Except.ok s) tid) tid =
        mark_task_done (Except.ok s) tid) := by
  constructor
  · intro s tid hdone
    simp only [mark_task_done, Except.ok.injEq]
    induction s with
    | nil => rfl
    | cons t ts ih =>
        simp only [applyMarkDone, List.map_cons] at *
        by_cases h : t.id = tid
        · rw [if_pos h, setDone_of_done t (hdone t (by simp) h)]
          have := ih (fun u hu hid => hdone u (by simp [hu]) hid)
          simpa [applyMarkDone] using this
        · rw [if_neg h]
          have := ih (fun u hu hid => hdone u (by simp [hu]) hid)
          simpa [applyMarkDone] using this
  · intro s tid
    simp [mark_task_done, applyMarkDone_idem]

/-- Witness for C5: marking task 7 done on a store where task 7 is already
done leaves the store unchanged. -/
theorem mark_task_done_idem_witness :
    mark_task_done (Except.ok [⟨7, 1, "done", "x"⟩, ⟨8, 2, "pending", "y"⟩]) 7 =
      Except.ok [⟨7, 1, "done", "x"⟩, ⟨8, 2, "pending", "y"⟩] :=
  mark_task_done_idem.1 [⟨7, 1, "done", "x"⟩, ⟨8, 2, "pending", "y"⟩] 7
    (by decide)

/-- Counterexample to claim C6: invoking `mark_task_done` with an id that
matches no task in the store does NOT fail: the update matches zero rows and
succeeds, leaving the store unchanged. -/
theorem mark_task_done_missing_id_no_error :
    (2 ∉ ([⟨1, 0, "pending", "a"⟩] : List Task).map Task.id) ∧
      mark_task_done (Except.ok [⟨1, 0, "pending", "a"⟩]) 2 =
        Except.ok [⟨1, 0, "pending", "a"⟩] := by
  constructor
  · decide
  · rfl

/-- Claim C6 (amended): a failing write is surfaced unaltered (not retried,
not swallowed); a successful write updates exactly the tasks whose id matches
to status "done" and leaves every other task unchanged; a nonexistent task id
is not an error — the update succeeds and changes nothing. -/
theorem mark_task_done_error_and_update :
    (∀ (e : String) (tid : Nat),
      mark_task_done (Except.error e) tid = Except.error e) ∧
    (∀ (s : List Task) (tid : Nat) (t : Task), t ∈ s → t.id = tid →
      setDone t ∈ applyMarkDone s tid) ∧
    (∀ (s : List Task) (tid : Nat) (t : Task), t ∈ s → t.id ≠ tid →
      t ∈ applyMarkDone s tid) ∧
    (∀ (s : List Task) (tid : Nat), (∀ t ∈ s, t.id ≠ tid) →
      mark_task_done (Except.ok s) tid = Except.ok s) := by
  refine ⟨fun e tid => rfl, ?_, ?_, ?_⟩
  · intro s tid t ht hid
    simp only [applyMarkDone]
    exact List.mem_map.mpr ⟨t, ht, by simp [hid]⟩
  · intro s tid t ht hid
    simp only [applyMarkDone]
    exact List.mem_map.mpr ⟨t, ht, by simp [hid]⟩
  · intro s tid hnone
    simp only [mark_task_done, Except.ok.injEq, applyMarkDone]
    have : ∀ t ∈ s, (if t.id = tid then setDone t else t) = t := by
      intro t ht
      simp [hnone t ht]
    calc s.map (fun t => if t.id = tid then setDone t else t)
        = s.map id := List.map_congr_left this
      _ = s := List.map_id s

/-- Witness for C6 (amended): the error branch propagates, the matching task
is set done, and a store without the id is unchanged. -/
theorem mark_task_done_error_and_update_witness :
    mark_task_done (Except.error "write failed") 1 =
        Except.error "write failed" ∧
      setDone ⟨1, 0, "pending", "a"⟩ ∈ applyMarkDone [⟨1, 0, "pending", "a"⟩] 1 ∧
      mark_task_done (Except.ok [⟨1, 0, "pending", "a"⟩]) 5 =
        Except.ok [⟨1, 0, "pending", "a"⟩] :=
  ⟨mark_task_done_error_and_update.1 "write failed" 1,
   mark_task_done_error_and_update.2.1 [⟨1, 0, "pending", "a"⟩] 1
     ⟨1, 0, "pending", "a"⟩ (by decide) rfl,
   mark_task_done_error_and_update.2.2.2 [⟨1, 0, "pending", "a"⟩] 5
     (by decide)⟩

/-- Claim C7: when the underlying store fails (the client raises), both the
snapshot fetch and the pending-task fetch return the empty sequence instead
of raising. -/
theorem fetch_soft_failure (e : String) :
    get_seo_data (Except.error e) = [] ∧
      get_pending_tasks (Except.error e) = [] :=
  ⟨rfl, rfl⟩

/-- Counterexample to claim C3: the LCP classification does NOT coerce a
null to zero — the raw value flows into the `> 2.5` comparison, and a null
LCP value makes the classification raise instead of classifying. -/
theorem lcp_delta_color_none_raises :
    lcp_delta_color none =
      Except.error "TypeError: comparison of NoneType and float" ∧
      (lcp_delta_color none).isOk = false :=
  ⟨rfl, rfl⟩

/-- Claim C3 (amended): in the delta computation a missing/null score is
coerced to zero and never causes an error, for any snapshot sequence; the
LCP classification, however, applies no coercion: it classifies every present
value, but a null LCP is propagated into the comparison and errors. -/
theorem null_handling_amended :
    (∀ (A B : Snapshot) (rest : List Snapshot),
      delta_score (A :: B :: rest) =
        A.overall_score.getD 0 - B.overall_score.getD 0) ∧
    (∀ q : ℚ, lcp_delta_color (some q) =
      Except.ok (if q > 5/2 then "inverse" else "normal")) ∧
    (lcp_delta_color none).isOk = false := by
  refine ⟨?_, fun q => rfl, rfl⟩
  intro A B rest
  simpa [specCoerce] using delta_score_eq_coerce_sub A B rest

/-- Witness for C3 (amended): a null newest score against a present previous
score yields delta `0 - 75`, and a present LCP of 3 classifies without
error. -/
theorem null_handling_amended_witness :
    delta_score [⟨1, none, none, none, none, none⟩,
        ⟨0, some 75, none, none, none, none⟩] = 0 - 75 ∧
      lcp_delta_color (some 3) =
        Except.ok (if (3 : ℚ) > 5/2 then "inverse" else "normal") :=
  ⟨null_handling_amended.1 ⟨1, none, none, none, none, none⟩
      ⟨0, some 75, none, none, none, none⟩ [],
   null_handling_amended.2.1 3⟩

/-- Counterexample to claim C8: when the page-performance fetch fails, the
products tab does not yield the empty/neutral "waiting for data" result — it
displays an error message (`st.error`). -/
theorem tab_products_error_not_neutral :
    tab_products (Except.error "db down") =
        ProductsView.errorShown "Kunne ikke hente produkt-data: db down" ∧
      tab_products (Except.error "db down") ≠ ProductsView.noData := by
  constructor
  · rfl
  · decide

/-- Claim C8 (amended): the products-tab fetch does not raise — the
exception is caught — but a store failure is surfaced as an error message,
not as the neutral empty result; the neutral "no data yet" presentation is
shown only when the fetch succeeds with zero rows. -/
theorem tab_products_failure_policy :
    (∀ e : String, tab_products (Except.error e) =
      ProductsView.errorShown ("Kunne ikke hente produkt-data: " ++ e)) ∧
    (∀ e : String, tab_products (Except.error e) ≠ ProductsView.noData) ∧
    tab_products (Except.ok []) = ProductsView.noData := by
  refine ⟨fun e => rfl, fun e => ?_, rfl⟩
  simp [tab_products]

/-- Witness for C8 (amended): a concrete store failure is shown as an error
message and is not the neutral no-data result. -/
theorem tab_products_failure_policy_witness :
    tab_products (Except.error "offline") =
        ProductsView.errorShown ("Kunne ikke hente produkt-data: " ++ "offline") ∧
      tab_products (Except.error "offline") ≠ ProductsView.noData :=
  ⟨tab_products_failure_policy.1 "offline",
   tab_products_failure_policy.2.1 "offline"⟩

/-- Claim C10: whenever the snapshot fetch comes back empty, the script stops
after the waiting message: the tasks (though already fetched) and the
products tab are never rendered, and marking a task done is unreachable. -/
theorem run_dashboard_halts_on_empty
    (snapResp : Except String (List Snapshot))
    (taskResp : Except String (List Task))
    (perfResp : Except String (List PagePerformance))
    (h : get_seo_data snapResp = []) :
    run_dashboard snapResp taskResp perfResp = Render.waitingForData := by
  simp [run_dashboard, h]

/-- Witness for C10: with the snapshot store unreachable, the render halts at
the waiting message even though tasks and page data exist. -/
theorem run_dashboard_halts_on_empty_witness :
    run_dashboard (Except.error "store down")
        (Except.ok [⟨1, 0, "pending", "a"⟩])
        (Except.ok [⟨0, "home", 10, 100, 1/10, 3⟩]) = Render.waitingForData :=
  run_dashboard_halts_on_empty _ _ _ rfl

end SeoDashboard
